import Mathlib

/-
Shallow embedding of the wallet-auth and session-lifecycle core of the
web-app repository.

Server side (src/unnamed/part_010 = utils/supabaseAuth.js,
src/unnamed/part_011 = index.js + routes/authRoutes.js,
src/server/middleware/jwtAuth.js, src/server/database/supabase.js):
  - JWTs are modelled symbolically: a token is its payload together with the
    secret it was signed with; jwt.verify succeeds exactly when the secrets
    agree and the token is unexpired (jsonwebtoken throws TokenExpiredError
    when clockTimestamp >= exp, so validity is now < exp).
  - The user_sessions table is a list of rows; supabase query chains are
    translated to list operations (insert = append, .eq filters = filter,
    .single = exactly-one-row, .delete = remove matching rows, .lt = filter).
  - Wall-clock time is an explicit Nat parameter (seconds on the server).
  - Fallible collaborator calls (the insert that can fail, the delete that
    can fail) take the collaborator outcome as an explicit Option parameter.
  - Async functions are flattened to pure state-passing functions; each
    verification trace records how many store select queries it performed.

Client side (src/cheshire/src/store/supabaseAuthStore.ts,
src/cheshire/src/hooks/useWalletAuthSync.ts):
  - localStorage / sessionStorage are association lists of string pairs.
  - The localStorage auth cache read (getCachedAuth) and the wallet-sync
    effects are translated directly; time is milliseconds there.
-/

/- ================= environment configuration ================= -/

/-- Environment configuration consumed by the auth utilities.
A variable that is not set is none; JS truthiness treats the empty string
like an unset variable. -/
structure Env where
  jwt_secret : Option String
  supabase_service_key : Option String
deriving Repr, DecidableEq

/-- JS expression a or-else b for environment strings: an unset or empty
left operand falls through to the right one. -/
def jsOrStr (a : Option String) (b : String) : String :=
  match a with
  | none => b
  | some s => if s = "" then b else s

def fallbackSecret : String := "fallback-secret"

/-- Secret computed inside createAuthSession (part_010 line 22):
JWT_SECRET or SUPABASE_SERVICE_KEY or the fallback constant. -/
def createAuthSessionSecret (env : Env) : String :=
  jsOrStr env.jwt_secret (jsOrStr env.supabase_service_key fallbackSecret)

/-- Secret computed inside verifyAuthToken (part_010 line 54); the source
repeats the same expression verbatim. -/
def verifyAuthTokenSecret (env : Env) : String :=
  jsOrStr env.jwt_secret (jsOrStr env.supabase_service_key fallbackSecret)

/-- Secret computed inside invalidateSession (part_010 line 97); again the
same repeated expression. -/
def invalidateSessionSecret (env : Env) : String :=
  jsOrStr env.jwt_secret (jsOrStr env.supabase_service_key fallbackSecret)

/-- The toLowerCase() calls of the source, modelled as per-character ASCII
lower-casing (the addresses involved are ASCII hex strings); the core
String.toLower maps the same per-character function. -/
def strToLower (s : String) : String :=
  String.mk (s.toList.map Char.toLower)

/- ================= symbolic JWT ================= -/

/-- Payload signed in createAuthSession (part_010 lines 13-19). -/
structure JwtPayload where
  wallet_address : String
  iat : Nat
  exp : Nat
  iss : String
  sub : String
deriving Repr, DecidableEq

/-- A signed token: payload plus the secret used to sign it. -/
structure Token where
  payload : JwtPayload
  secret : String
deriving Repr, DecidableEq

def jwtSign (p : JwtPayload) (secret : String) : Token :=
  { payload := p, secret := secret }

/-- jwt.verify: returns the decoded payload when the signature checks out
under the given secret and the embedded expiry is still in the future;
otherwise it throws, modelled as none. -/
def jwtVerify (t : Token) (secret : String) (now : Nat) : Option JwtPayload :=
  if t.secret = secret ∧ now < t.payload.exp then some t.payload else none

/- ================= session store ================= -/

/-- A row of the user_sessions table (insert in part_010 lines 26-33). -/
structure SessionRow where
  jwt_token : Token
  wallet_address : String
  expires_at : Nat
  created_at : Nat
deriving Repr, DecidableEq

abbrev SessionStore := List SessionRow

/-- A supabase error object; only the code field is inspected by the
handlers (the 23503 foreign-key check in the signin route). -/
structure DbError where
  code : String
deriving Repr, DecidableEq

/-- Session duration in seconds, 36 hours (part_010 line 5). -/
def SESSION_DURATION : Nat := 129600

/-- The userPayload built by createAuthSession (part_010 lines 13-19). -/
def issuedPayload (now : Nat) (walletAddress : String) : JwtPayload :=
  { wallet_address := strToLower walletAddress
    iat := now
    exp := now + SESSION_DURATION
    iss := "cheshire-auth"
    sub := strToLower walletAddress }

/-- The token signed by createAuthSession (part_010 line 23). -/
def issuedToken (env : Env) (now : Nat) (walletAddress : String) : Token :=
  jwtSign (issuedPayload now walletAddress) (createAuthSessionSecret env)

/-- The user_sessions row inserted by createAuthSession
(part_010 lines 26-33). -/
def issuedRow (env : Env) (now : Nat) (walletAddress : String) : SessionRow :=
  { jwt_token := issuedToken env now walletAddress
    wallet_address := strToLower walletAddress
    expires_at := now + SESSION_DURATION
    created_at := now }

/-- createAuthSession (part_010 lines 10-47): build the payload, sign it,
insert the row. The outcome of the collaborating store insert is the
insertError parameter: on a store error the function rethrows it and no
token reaches the caller; on success the signed token is returned and the
row is appended. -/
def createAuthSession (env : Env) (now : Nat) (insertError : Option DbError)
    (store : SessionStore) (walletAddress : String) :
    Except DbError Token × SessionStore :=
  match insertError with
  | some e => (Except.error e, store)
  | none =>
      (Except.ok (issuedToken env now walletAddress),
        store ++ [issuedRow env now walletAddress])

/-- The select .eq jwt_token .eq wallet_address .single query of
verifyAuthToken (part_010 lines 60-65): some row exactly when the filter
matches a single row, none otherwise (.single errors on zero or many). -/
def sessionSelectSingle (store : SessionStore) (t : Token) (addr : String) :
    Option SessionRow :=
  match store.filter (fun r => r.jwt_token == t && r.wallet_address == addr) with
  | [r] => some r
  | _ => none

/-- Result of one verifyAuthToken call: the returned value (the verified
wallet address, or none for the null results and caught throws), the store
after the call, and how many store select queries were performed. -/
structure VerifyTrace where
  result : Option String
  store : SessionStore
  storeReads : Nat
deriving Repr, DecidableEq

/-- verifyAuthToken (part_010 lines 52-90): structural jwt.verify first
(a throw is caught and yields null with no store access), then the single
row lookup, then the row-expiry check which deletes the row keyed by the
token value before returning null. -/
def verifyAuthToken (env : Env) (now : Nat) (store : SessionStore)
    (t : Token) : VerifyTrace :=
  match jwtVerify t (verifyAuthTokenSecret env) now with
  | none => { result := none, store := store, storeReads := 0 }
  | some decoded =>
      match sessionSelectSingle store t decoded.wallet_address with
      | none => { result := none, store := store, storeReads := 1 }
      | some session =>
          if session.expires_at < now then
            { result := none
              store := store.filter (fun r => !(r.jwt_token == t))
              storeReads := 1 }
          else
            { result := some decoded.wallet_address
              store := store
              storeReads := 1 }

/-- invalidateSession (part_010 lines 95-119): jwt.verify first (a throw is
caught and yields false with no deletion), then delete the rows matching
both the token value and the decoded wallet address. -/
def invalidateSession (env : Env) (now : Nat) (store : SessionStore)
    (t : Token) : Bool × SessionStore :=
  match jwtVerify t (invalidateSessionSecret env) now with
  | none => (false, store)
  | some decoded =>
      (true,
        store.filter
          (fun r => !(r.jwt_token == t && r.wallet_address == decoded.wallet_address)))

/-- Store existence lookup of the Credential Store contract, keyed by
credential value and address exactly as the verifier select is. -/
def sessionExists (store : SessionStore) (t : Token) (addr : String) : Bool :=
  store.any (fun r => r.jwt_token == t && r.wallet_address == addr)

/-- cleanupExpiredSessions (part_010 lines 124-138): delete the rows with
expires_at < now; a store error is caught and logged, leaving the rows in
place, and is never rethrown. -/
def cleanupExpiredSessions (dbError : Option DbError) (now : Nat)
    (store : SessionStore) : SessionStore :=
  match dbError with
  | some _ => store
  | none => store.filter (fun r => !(decide (r.expires_at < now)))

/-- Number of rows a cleanupExpiredSessions delete affects (the source
discards the count supabase could report, so this is the observable
rows-affected quantity of the delete). -/
def expiredRowCount (now : Nat) (store : SessionStore) : Nat :=
  (store.filter (fun r => decide (r.expires_at < now))).length

/- ================= server guard middleware ================= -/

/-- The Authorization header of a request as the middleware sees it. -/
inductive AuthHeader where
  | missing
  | notBearer (s : String)
  | bearer (t : Token)
deriving Repr, DecidableEq

inductive GuardResult where
  | reject (status : Nat)
  | proceed (walletAddress : String)
deriving Repr, DecidableEq

structure GuardTrace where
  result : GuardResult
  store : SessionStore
  storeReads : Nat
deriving Repr, DecidableEq

/-- requireJwtAuth (src/server/middleware/jwtAuth.js lines 7-43): 401 when
the bearer header is absent or malformed, 401 when verifyAuthToken yields
null, otherwise pass through with the verified address attached. -/
def requireJwtAuth (env : Env) (now : Nat) (store : SessionStore)
    (h : AuthHeader) : GuardTrace :=
  match h with
  | AuthHeader.missing =>
      { result := GuardResult.reject 401, store := store, storeReads := 0 }
  | AuthHeader.notBearer _ =>
      { result := GuardResult.reject 401, store := store, storeReads := 0 }
  | AuthHeader.bearer t =>
      let v := verifyAuthToken env now store t
      match v.result with
      | none =>
          { result := GuardResult.reject 401, store := v.store
            storeReads := v.storeReads }
      | some w =>
          { result := GuardResult.proceed w, store := v.store
            storeReads := v.storeReads }

/- ================= signin route ================= -/

/-- Character class of the regex bracket [a-fA-F0-9]. -/
def isHexChar (c : Char) : Bool :=
  (decide ('0' ≤ c) && decide (c ≤ '9')) ||
  (decide ('a' ≤ c) && decide (c ≤ 'f')) ||
  (decide ('A' ≤ c) && decide (c ≤ 'F'))

/-- Does the needle occur at the head of the haystack. -/
def charsStartWith : List Char → List Char → Bool
  | [], _ => true
  | _ :: _, [] => false
  | a :: as, b :: bs => a == b && charsStartWith as bs

/-- The literal part of the signin regex, the text before the capture plus
the 0x the capture starts with. -/
def addrMarker : List Char := "Address: 0x".toList

/-- Try to match the pattern at the current position and return the
captured group 0x plus 40 hex characters. -/
def matchAddrHere (cs : List Char) : Option String :=
  if charsStartWith addrMarker cs then
    let h := (cs.drop 11).take 40
    if h.length == 40 && h.all isHexChar then
      some (String.mk ('0' :: 'x' :: h))
    else none
  else none

/-- message.match of the signin handler (part_011 line 317), the regex
Address colon space (0x[a-fA-F0-9]\x7b40\x7d): leftmost match wins. -/
def extractAddress : List Char → Option String
  | [] => none
  | c :: rest =>
      match matchAddrHere (c :: rest) with
      | some a => some a
      | none => extractAddress rest

/-- JSON body of the signin response, with the fields the handler can set:
needsSetup and the address echo appear only in the 403 bodies, the user
walletAddress only in the success body. -/
structure SigninResponse where
  status : Nat
  success : Bool
  token : Option Token
  needsSetup : Option Bool
  walletAddress : Option String
  address : Option String
deriving Repr, DecidableEq

/-- A profiles table abstraction of userDb.exists
(src/server/database/supabase.js lines 47-61): the set of wallet_address
values of completed profiles, stored lower-cased; the query compares
against the lower-cased address. -/
abbrev Profiles := List String

/-- The POST signin handler (part_011 lines 305-373). Inputs: the request
body fields (a missing JSON field behaves like the empty string under the
JS falsy check), the profiles table, and the outcome of the store insert
performed by createAuthSession. The signature is only checked for
presence; no cryptographic verification is performed (the source marks
this with a TODO and trusts the frontend). -/
def signinHandler (env : Env) (now : Nat) (profiles : Profiles)
    (insertError : Option DbError) (store : SessionStore)
    (message signature : String) : SigninResponse × SessionStore :=
  if message = "" ∨ signature = "" then
    ({ status := 400, success := false, token := none, needsSetup := none
       walletAddress := none, address := none }, store)
  else
    match extractAddress message.toList with
    | none =>
        ({ status := 400, success := false, token := none, needsSetup := none
           walletAddress := none, address := none }, store)
    | some address =>
        if profiles.contains (strToLower address) = false then
          ({ status := 403, success := false, token := none
             needsSetup := some true, walletAddress := none
             address := some (strToLower address) }, store)
        else
          match createAuthSession env now insertError store address with
          | (Except.ok t, store1) =>
              ({ status := 200, success := true, token := some t
                 needsSetup := none, walletAddress := some address
                 address := none }, store1)
          | (Except.error e, store1) =>
              if e.code = "23503" then
                ({ status := 403, success := false, token := none
                   needsSetup := some true, walletAddress := none
                   address := none }, store1)
              else
                ({ status := 500, success := false, token := none
                   needsSetup := none, walletAddress := none
                   address := none }, store1)

/- ================= client session cache ================= -/

/-- Milliseconds, 6 minutes (supabaseAuthStore.ts line 335). -/
def CACHE_DURATION : Nat := 6 * 60 * 1000

/-- The AuthCache record serialized into localStorage
(supabaseAuthStore.ts lines 339-344). -/
structure AuthCache where
  isAuthenticated : Bool
  userAddress : Option String
  userExists : Bool
  timestamp : Nat
deriving Repr, DecidableEq

/-- What the cache key currently holds in localStorage: nothing, a blob
that JSON.parse rejects, or a well-formed serialized entry. -/
inductive StoredCache where
  | absent
  | corrupt (raw : String)
  | entry (c : AuthCache)
deriving Repr, DecidableEq

/-- Result of one getCachedAuth call: the returned value and the stored
record after the call. -/
structure CacheRead where
  result : Option AuthCache
  stored : StoredCache
deriving Repr, DecidableEq

/-- getCachedAuth (supabaseAuthStore.ts lines 368-388): a missing record
returns null; an unparsable record is removed and returns null; an entry
strictly older than CACHE_DURATION is removed and returns null; otherwise
the entry is returned and kept. JS computes now - timestamp as a possibly
negative number, which fails the strict greater-than test just as the
truncating Nat subtraction does. -/
def getCachedAuth (now : Nat) (s : StoredCache) : CacheRead :=
  match s with
  | StoredCache.absent => { result := none, stored := StoredCache.absent }
  | StoredCache.corrupt _ => { result := none, stored := StoredCache.absent }
  | StoredCache.entry c =>
      if now - c.timestamp > CACHE_DURATION then
        { result := none, stored := StoredCache.absent }
      else
        { result := some c, stored := StoredCache.entry c }

/- ================= client wallet-sync effects ================= -/

/-- A web storage area as an association list of key-value pairs. -/
abbrev WebStorage := List (String × String)

def jwtTokenKey : String := "cheshire_jwt_token"

def storageGetItem (ls : WebStorage) (k : String) : Option String :=
  (ls.find? (fun kv => kv.1 == k)).map (fun kv => kv.2)

def storageRemoveItem (ls : WebStorage) (k : String) : WebStorage :=
  ls.filter (fun kv => !(kv.1 == k))

/-- key.includes(sub): does sub occur as a contiguous substring of key. -/
def charsContain (needle : List Char) : List Char → Bool
  | [] => needle.isEmpty
  | c :: rest => charsStartWith needle (c :: rest) || charsContain needle rest

def strIncludes (key sub : String) : Bool :=
  charsContain sub.toList key.toList

def subRainbow : String := "rainbow"

def subWallet : String := "wallet"

def subWagmi : String := "wagmi"

def subWalletconnect : String := "walletconnect"

/-- The localStorage key filter of clearWalletData
(useWalletAuthSync.ts lines 13-19). -/
def walletLocalKey (k : String) : Bool :=
  strIncludes k subRainbow || strIncludes k subWallet ||
  strIncludes k subWagmi || strIncludes k subWalletconnect ||
  strIncludes k jwtTokenKey

/-- The sessionStorage key filter of clearWalletData
(useWalletAuthSync.ts lines 27-32): same list without the JWT key. -/
def walletSessionKey (k : String) : Bool :=
  strIncludes k subRainbow || strIncludes k subWallet ||
  strIncludes k subWagmi || strIncludes k subWalletconnect

/-- clearWalletData (useWalletAuthSync.ts lines 8-42): drop every matching
key from both storage areas. -/
def clearWalletData (ls ss : WebStorage) : WebStorage × WebStorage :=
  (ls.filter (fun kv => !(walletLocalKey kv.1)),
   ss.filter (fun kv => !(walletSessionKey kv.1)))

/-- The JWT-variant client auth state (supabaseAuthStore.ts lines 8-28). -/
structure ClientAuthState where
  isAuthenticated : Bool
  isAuthenticating : Bool
  userAddress : Option String
  userExists : Bool
  isCheckingUser : Bool
  serverError : Bool
  jwtToken : Option String
deriving Repr, DecidableEq

/-- logout of the JWT store (supabaseAuthStore.ts lines 201-228): the
best-effort server signout is fired and ignored, the stored token is
removed, and the auth fields are reset. -/
def storeLogout (st : ClientAuthState) (ls : WebStorage) :
    ClientAuthState × WebStorage :=
  ({ st with
      isAuthenticated := false
      userAddress := none
      userExists := false
      jwtToken := none
      serverError := false },
   storageRemoveItem ls jwtTokenKey)

/-- Observable outcome of one wallet-sync effect run: client state, the two
storage areas, whether a navigation to the landing page was forced, and
whether a full reload was forced. -/
structure SyncOutcome where
  state : ClientAuthState
  localS : WebStorage
  sessionS : WebStorage
  navigatedHome : Bool
  reloaded : Bool
deriving Repr, DecidableEq

/-- The disconnect effect (useWalletAuthSync.ts lines 52-63): when the
wallet is no longer connected while authenticated, log out, clear the
wallet data, and navigate to the landing page. -/
def disconnectEffect (isConnected isAuthenticated : Bool)
    (st : ClientAuthState) (ls ss : WebStorage) : SyncOutcome :=
  if !isConnected && isAuthenticated then
    let p1 := storeLogout st ls
    let p2 := clearWalletData p1.2 ss
    { state := p1.1, localS := p2.1, sessionS := p2.2
      navigatedHome := true, reloaded := false }
  else
    { state := st, localS := ls, sessionS := ss
      navigatedHome := false, reloaded := false }

/-- The address-change effect (useWalletAuthSync.ts lines 66-92), after the
initial-mount skip: when the previous address ref holds a nonempty address
different from the currently reported one, log out, clear the wallet data,
and force a full reload; the returned option is the new value of the
previous-address ref. -/
def addressChangeEffect (prevAddress address : Option String)
    (st : ClientAuthState) (ls ss : WebStorage) : SyncOutcome × Option String :=
  match prevAddress with
  | none => ({ state := st, localS := ls, sessionS := ss
               navigatedHome := false, reloaded := false }, address)
  | some p =>
      if p ≠ "" ∧ some p ≠ address then
        let p1 := storeLogout st ls
        let p2 := clearWalletData p1.2 ss
        ({ state := p1.1, localS := p2.1, sessionS := p2.2
           navigatedHome := false, reloaded := true }, address)
      else
        ({ state := st, localS := ls, sessionS := ss
           navigatedHome := false, reloaded := false }, address)

/- ================= example values for concrete runs ================= -/

/-- The empty environment: neither JWT_SECRET nor SUPABASE_SERVICE_KEY. -/
def envNone : Env := { jwt_secret := none, supabase_service_key := none }

/-- A syntactically well-formed wallet address, 0x plus 40 hex chars. -/
def addr40 : String := "0xaaaaaaaaaaaaaaaaaaaaaaaaaaaaaaaaaaaaaaaa"

/-- A challenge message embedding addr40 in the extractable format. -/
def msg40 : String :=
  "Sign this message to authenticate with Cheshire. Address: 0xaaaaaaaaaaaaaaaaaaaaaaaaaaaaaaaaaaaaaaaa Nonce: k9q2"

/-- A payload as createAuthSession builds it for addr40 at time 0 under
the empty environment. -/
def payload40 : JwtPayload :=
  { wallet_address := addr40, iat := 0, exp := 129600
    iss := "cheshire-auth", sub := addr40 }

/-- The token createAuthSession signs for payload40. -/
def token40 : Token := { payload := payload40, secret := fallbackSecret }

/-- The session row recorded for token40. -/
def row40 : SessionRow :=
  { jwt_token := token40, wallet_address := addr40
    expires_at := 129600, created_at := 0 }

/-- A row whose database expiry is already past while the embedded token
expiry is still in the future (stores are external and arbitrary). -/
def rowStale : SessionRow :=
  { jwt_token := token40, wallet_address := addr40
    expires_at := 100, created_at := 0 }

/-- A sample cache entry written at time 0. -/
def cacheEntry0 : AuthCache :=
  { isAuthenticated := true, userAddress := some addr40
    userExists := true, timestamp := 0 }

/- ================= generic list lemmas ================= -/

theorem filterSameIdem {α : Type} (p : α → Bool) :
    ∀ l : List α, (l.filter p).filter p = l.filter p
  | [] => rfl
  | a :: l => by
      cases h : p a <;> simp [List.filter_cons, h, filterSameIdem p l]

theorem filterNotThenFilter {α : Type} (p : α → Bool) :
    ∀ l : List α, (l.filter (fun a => !(p a))).filter p = []
  | [] => rfl
  | a :: l => by
      cases h : p a <;> simp [List.filter_cons, h, filterNotThenFilter p l]

theorem filterNotAnyFalse {α : Type} (p : α → Bool) :
    ∀ l : List α, (l.filter (fun a => !(p a))).any p = false
  | [] => rfl
  | a :: l => by
      cases h : p a <;>
        simp [List.filter_cons, List.any_cons, h, filterNotAnyFalse p l]

theorem filterNotAllNot {α : Type} (p : α → Bool) :
    ∀ l : List α, (l.filter (fun a => !(p a))).all (fun a => !(p a)) = true
  | [] => rfl
  | a :: l => by
      cases h : p a <;>
        simp [List.filter_cons, List.all_cons, h, filterNotAllNot p l]

theorem findFilteredNone {α : Type} (p q : α → Bool)
    (h : ∀ a, q a = true → p a = true) :
    ∀ l : List α, (l.filter (fun a => !(p a))).find? q = none
  | [] => rfl
  | a :: l => by
      cases hpa : p a
      · have hqa : q a = false := by
          cases hq : q a
          · rfl
          · rw [h a hq] at hpa; exact absurd hpa (by simp)
        simp [List.filter_cons, hpa, List.find?_cons, hqa,
          findFilteredNone p q h l]
      · simp [List.filter_cons, hpa, findFilteredNone p q h l]

/-- The three occurrences of the secret expression in the source compute
the same value in every environment. -/
theorem secretRulesAgree (env : Env) :
    createAuthSessionSecret env = verifyAuthTokenSecret env ∧
    createAuthSessionSecret env = invalidateSessionSecret env :=
  ⟨rfl, rfl⟩

/-- A stored blob JSON.parse rejects. -/
def corruptBlob : String := "not-json"

/-- A second, different wallet address as the wallet library reports it. -/
def addrB : String := "0xbbbb"

/-- An opaque serialized token value as held in localStorage. -/
def tokStr : String := "header.payload.sig"

/-- A wallet-library-owned localStorage key. -/
def wagmiKey : String := "wagmi.store"

/-- An unrelated localStorage key owned by the application shell. -/
def themeKey : String := "theme"

/-- A client state authenticated for addr40. -/
def st0 : ClientAuthState :=
  { isAuthenticated := true, isAuthenticating := false
    userAddress := some addr40, userExists := true
    isCheckingUser := false, serverError := false
    jwtToken := some tokStr }

/-- A localStorage holding the JWT, a wallet-library key and an unrelated
key. -/
def ls0 : WebStorage :=
  [(jwtTokenKey, tokStr), (wagmiKey, tokStr), (themeKey, tokStr)]

/-- A sessionStorage holding one wallet-library key. -/
def ss0 : WebStorage := [(wagmiKey, tokStr)]

/-- An arbitrary blob that is not a signature over msg40 by any key. -/
def junkSignatureA : String := "this-is-not-a-valid-signature"

/-- A second, different arbitrary blob. -/
def junkSignatureB : String := "another-arbitrary-blob"

/- ================= claim theorems ================= -/

/-- Claim C8: deleteExpired is idempotent and never errors: with no new
expirations between two calls, the second call leaves the store unchanged
and the delete it issues affects zero rows; a store error is caught, so
the call returns normally with the rows left in place. -/
theorem cleanup_idempotent_never_errors :
    ∀ (now : Nat) (store : SessionStore) (e : DbError),
      cleanupExpiredSessions none now (cleanupExpiredSessions none now store) =
        cleanupExpiredSessions none now store ∧
      expiredRowCount now (cleanupExpiredSessions none now store) = 0 ∧
      cleanupExpiredSessions (some e) now store = store := by
  intro now store e
  refine ⟨?_, ?_, rfl⟩
  · simp only [cleanupExpiredSessions]
    exact filterSameIdem _ store
  · simp only [cleanupExpiredSessions, expiredRowCount]
    rw [filterNotThenFilter]
    rfl

/-- Claim C2: a credential whose own expiry is past is rejected with 401 by
the guard for every store, including stores that still hold a matching
row, without any store read and without changing the store; more generally
any structural jwt.verify failure returns null before any store query. -/
theorem verifier_rejects_expired_before_store :
    ∀ (env : Env) (now : Nat) (store : SessionStore) (t : Token),
      (t.payload.exp ≤ now →
        requireJwtAuth env now store (AuthHeader.bearer t) =
          { result := GuardResult.reject 401, store := store, storeReads := 0 }) ∧
      (jwtVerify t (verifyAuthTokenSecret env) now = none →
        verifyAuthToken env now store t =
          { result := none, store := store, storeReads := 0 }) := by
  intro env now store t
  have hval : jwtVerify t (verifyAuthTokenSecret env) now = none →
      verifyAuthToken env now store t = ⟨none, store, 0⟩ := by
    intro hv
    simp [verifyAuthToken, hv]
  constructor
  · intro hexp
    have hv : jwtVerify t (verifyAuthTokenSecret env) now = none := by
      unfold jwtVerify
      rw [if_neg]
      rintro ⟨-, hlt⟩
      exact Nat.not_lt.mpr hexp hlt
    simp [requireJwtAuth, hval hv]
  · exact hval

/-- Witness for C2 at a store that still holds the matching row of the
expired token. -/
theorem verifier_rejects_expired_before_store_witness :
    sessionExists [row40] token40 addr40 = true ∧
    token40.payload.exp ≤ 129600 ∧
    requireJwtAuth envNone 129600 [row40] (AuthHeader.bearer token40) =
      { result := GuardResult.reject 401, store := [row40], storeReads := 0 } ∧
    jwtVerify token40 (verifyAuthTokenSecret envNone) 129600 = none ∧
    verifyAuthToken envNone 129600 [row40] token40 =
      { result := none, store := [row40], storeReads := 0 } :=
  ⟨by decide, by decide,
   (verifier_rejects_expired_before_store envNone 129600 [row40] token40).1
     (by decide),
   by decide,
   (verifier_rejects_expired_before_store envNone 129600 [row40] token40).2
     (by decide)⟩

/-- Claim C4: issuance is all-or-nothing: a failing store insert makes
createAuthSession rethrow the error with the store unchanged and no token
value in the result; and every token a successful call hands out is
recorded in the resulting store under the lower-cased address. -/
theorem issuance_all_or_nothing :
    ∀ (env : Env) (now : Nat) (store : SessionStore) (addr : String),
      (∀ e : DbError,
        createAuthSession env now (some e) store addr =
          (Except.error e, store)) ∧
      (∀ (ie : Option DbError) (t : Token) (store1 : SessionStore),
        createAuthSession env now ie store addr = (Except.ok t, store1) →
        sessionExists store1 t (strToLower addr) = true) := by
  intro env now store addr
  constructor
  · intro e
    rfl
  · intro ie t store1 h
    cases ie with
    | some e => simp [createAuthSession] at h
    | none =>
        simp only [createAuthSession, Prod.mk.injEq, Except.ok.injEq] at h
        obtain ⟨ht, hs⟩ := h
        subst ht
        subst hs
        simp [sessionExists, issuedRow]

/-- Witness for C4: a concrete failing insert returns the error and the
empty store, and a concrete successful issuance records the token. -/
theorem issuance_all_or_nothing_witness :
    createAuthSession envNone 0 (some { code := "53300" }) [] addr40 =
      (Except.error { code := "53300" }, []) ∧
    createAuthSession envNone 0 none [] addr40 =
      (Except.ok (issuedToken envNone 0 addr40), [issuedRow envNone 0 addr40]) ∧
    sessionExists [issuedRow envNone 0 addr40] (issuedToken envNone 0 addr40)
      (strToLower addr40) = true :=
  ⟨(issuance_all_or_nothing envNone 0 [] addr40).1 { code := "53300" },
   rfl,
   (issuance_all_or_nothing envNone 0 [] addr40).2 none
     (issuedToken envNone 0 addr40) [issuedRow envNone 0 addr40] rfl⟩

/-- Claim C9: with neither JWT_SECRET nor SUPABASE_SERVICE_KEY set, the
issuing secret, the verifying secret and the signout secret all evaluate
to the fallback constant; issuance and verification compute the secret by
the same rule in every environment, so an unexpired token signed with the
issuing secret of the empty environment passes the structural check. -/
theorem fallback_secret_rule :
    createAuthSessionSecret envNone = "fallback-secret" ∧
    verifyAuthTokenSecret envNone = "fallback-secret" ∧
    invalidateSessionSecret envNone = "fallback-secret" ∧
    (∀ env : Env, createAuthSessionSecret env = verifyAuthTokenSecret env) ∧
    (∀ (now : Nat) (p : JwtPayload), now < p.exp →
      jwtVerify (jwtSign p (createAuthSessionSecret envNone))
        (verifyAuthTokenSecret envNone) now = some p) := by
  refine ⟨rfl, rfl, rfl, fun env => rfl, ?_⟩
  intro now p h
  unfold jwtVerify
  rw [if_pos ⟨rfl, h⟩]
  rfl

/-- Witness for C9 at a concrete unexpired payload. -/
theorem fallback_secret_rule_witness :
    (0 : Nat) < payload40.exp ∧
    jwtVerify (jwtSign payload40 (createAuthSessionSecret envNone))
      (verifyAuthTokenSecret envNone) 0 = some payload40 :=
  ⟨by decide, fallback_secret_rule.2.2.2.2 0 payload40 (by decide)⟩

/-- Claim C6 counterexample: at exactly now - cachedAt = TTL the claimed
behavior is a miss with deletion, but the code keeps and returns the entry
(its staleness test is strictly greater-than). -/
theorem cache_read_at_exact_ttl_is_a_hit :
    CACHE_DURATION - cacheEntry0.timestamp ≥ CACHE_DURATION ∧
    getCachedAuth CACHE_DURATION (StoredCache.entry cacheEntry0) =
      { result := some cacheEntry0, stored := StoredCache.entry cacheEntry0 } :=
  ⟨by decide, by decide⟩

/-- Claim C6 amended: a cache read returns the stored entry while
now - cachedAt is at most the TTL, returns None and deletes the record
once now - cachedAt strictly exceeds the TTL, and returns None and
deletes the record whenever the stored blob cannot be parsed. -/
theorem cache_ttl_boundary_amended :
    ∀ (now : Nat) (c : AuthCache) (raw : String),
      (now - c.timestamp ≤ CACHE_DURATION →
        getCachedAuth now (StoredCache.entry c) =
          { result := some c, stored := StoredCache.entry c }) ∧
      (CACHE_DURATION < now - c.timestamp →
        getCachedAuth now (StoredCache.entry c) =
          { result := none, stored := StoredCache.absent }) ∧
      getCachedAuth now (StoredCache.corrupt raw) =
        { result := none, stored := StoredCache.absent } := by
  intro now c raw
  refine ⟨?_, ?_, rfl⟩
  · intro h
    simp only [getCachedAuth]
    rw [if_neg (Nat.not_lt.mpr h)]
  · intro h
    simp only [getCachedAuth]
    rw [if_pos h]

/-- Witness for C6 amended at a fresh read, a stale read, and a corrupt
record. -/
theorem cache_ttl_boundary_amended_witness :
    ((360000 : Nat) - cacheEntry0.timestamp ≤ CACHE_DURATION ∧
      getCachedAuth 360000 (StoredCache.entry cacheEntry0) =
        { result := some cacheEntry0
          stored := StoredCache.entry cacheEntry0 }) ∧
    (CACHE_DURATION < (360001 : Nat) - cacheEntry0.timestamp ∧
      getCachedAuth 360001 (StoredCache.entry cacheEntry0) =
        { result := none, stored := StoredCache.absent }) ∧
    getCachedAuth 7 (StoredCache.corrupt corruptBlob) =
      { result := none, stored := StoredCache.absent } :=
  ⟨⟨by decide,
    (cache_ttl_boundary_amended 360000 cacheEntry0 corruptBlob).1 (by decide)⟩,
   ⟨by decide,
    (cache_ttl_boundary_amended 360001 cacheEntry0 corruptBlob).2.1 (by decide)⟩,
   (cache_ttl_boundary_amended 7 cacheEntry0 corruptBlob).2.2⟩

/-- Claim C5: for every successful issuance the store-existence lookup for
the issued token is true; signing out that token succeeds and makes the
lookup false; and verifying the token after signout is the normal null
rejection of the total verification function, for any later time at which
the token itself is still structurally unexpired. -/
theorem issue_signout_verify_lifecycle :
    ∀ (env : Env) (now now2 : Nat) (store : SessionStore) (addr : String)
      (t : Token) (store1 : SessionStore),
      createAuthSession env now none store addr = (Except.ok t, store1) →
      now2 < t.payload.exp →
      sessionExists store1 t (strToLower addr) = true ∧
      (invalidateSession env now2 store1 t).1 = true ∧
      sessionExists (invalidateSession env now2 store1 t).2 t (strToLower addr) =
        false ∧
      (verifyAuthToken env now2 (invalidateSession env now2 store1 t).2 t).result
        = none := by
  intro env now now2 store addr t store1 hc hlt
  simp only [createAuthSession, Prod.mk.injEq, Except.ok.injEq] at hc
  obtain ⟨ht, hs⟩ := hc
  subst ht
  subst hs
  have hjvI : jwtVerify (issuedToken env now addr) (invalidateSessionSecret env)
      now2 = some (issuedPayload now addr) := by
    unfold jwtVerify
    rw [if_pos ⟨rfl, hlt⟩]
    rfl
  have hjvV : jwtVerify (issuedToken env now addr) (verifyAuthTokenSecret env)
      now2 = some (issuedPayload now addr) := by
    unfold jwtVerify
    rw [if_pos ⟨rfl, hlt⟩]
    rfl
  refine ⟨?_, ?_, ?_, ?_⟩
  · simp [sessionExists, issuedRow]
  · simp [invalidateSession, hjvI]
  · simp only [invalidateSession, hjvI, sessionExists]
    exact filterNotAnyFalse _ _
  · simp only [invalidateSession, hjvI]
    simp only [verifyAuthToken, hjvV]
    have hsel : sessionSelectSingle
        ((store ++ [issuedRow env now addr]).filter
          (fun r => !(r.jwt_token == issuedToken env now addr &&
            r.wallet_address == (issuedPayload now addr).wallet_address)))
        (issuedToken env now addr) (issuedPayload now addr).wallet_address
        = none := by
      unfold sessionSelectSingle
      rw [filterNotThenFilter]
    rw [hsel]

/-- Witness for C5: a concrete issue, signout, verify round trip. -/
theorem issue_signout_verify_lifecycle_witness :
    createAuthSession envNone 0 none [] addr40 =
      (Except.ok (issuedToken envNone 0 addr40), [issuedRow envNone 0 addr40]) ∧
    (1000 : Nat) < (issuedToken envNone 0 addr40).payload.exp ∧
    (sessionExists [issuedRow envNone 0 addr40] (issuedToken envNone 0 addr40)
        (strToLower addr40) = true ∧
      (invalidateSession envNone 1000 [issuedRow envNone 0 addr40]
          (issuedToken envNone 0 addr40)).1 = true ∧
      sessionExists
        (invalidateSession envNone 1000 [issuedRow envNone 0 addr40]
            (issuedToken envNone 0 addr40)).2
        (issuedToken envNone 0 addr40) (strToLower addr40) = false ∧
      (verifyAuthToken envNone 1000
          (invalidateSession envNone 1000 [issuedRow envNone 0 addr40]
              (issuedToken envNone 0 addr40)).2
          (issuedToken envNone 0 addr40)).result = none) :=
  ⟨rfl, by decide,
   issue_signout_verify_lifecycle envNone 0 1000 [] addr40
     (issuedToken envNone 0 addr40) [issuedRow envNone 0 addr40] rfl
     (by decide)⟩

/-- Claim C10: verification mutates the store exactly in the expired-row
case: when the structural check passes and the single matching row is
past its database expiry, the rows holding that token value are deleted
and the result is null; any store change implies that case; and the
missing-header path of the guard leaves the store untouched. -/
theorem verify_store_frame_effect :
    ∀ (env : Env) (now : Nat) (store : SessionStore) (t : Token),
      (∀ (d : JwtPayload) (s : SessionRow),
        jwtVerify t (verifyAuthTokenSecret env) now = some d →
        sessionSelectSingle store t d.wallet_address = some s →
        s.expires_at < now →
        verifyAuthToken env now store t =
          { result := none
            store := store.filter (fun r => !(r.jwt_token == t))
            storeReads := 1 }) ∧
      ((verifyAuthToken env now store t).store ≠ store →
        (verifyAuthToken env now store t).result = none ∧
        (verifyAuthToken env now store t).store =
          store.filter (fun r => !(r.jwt_token == t)) ∧
        ∃ (d : JwtPayload) (s : SessionRow),
          jwtVerify t (verifyAuthTokenSecret env) now = some d ∧
          sessionSelectSingle store t d.wallet_address = some s ∧
          s.expires_at < now) ∧
      (requireJwtAuth env now store AuthHeader.missing).store = store := by
  intro env now store t
  refine ⟨?_, ?_, rfl⟩
  · intro d s hd hs hexp
    simp [verifyAuthToken, hd, hs, hexp]
  · intro hne
    cases hd : jwtVerify t (verifyAuthTokenSecret env) now with
    | none => simp [verifyAuthToken, hd] at hne
    | some d =>
        cases hs : sessionSelectSingle store t d.wallet_address with
        | none => simp [verifyAuthToken, hd, hs] at hne
        | some s =>
            by_cases hexp : s.expires_at < now
            · refine ⟨?_, ?_, d, s, rfl, hs, hexp⟩ <;>
                simp [verifyAuthToken, hd, hs, hexp]
            · simp [verifyAuthToken, hd, hs, hexp] at hne

/-- Witness for C10: a structurally valid token whose store row is past
its database expiry gets that row deleted and is rejected. -/
theorem verify_store_frame_effect_witness :
    jwtVerify token40 (verifyAuthTokenSecret envNone) 1000 = some payload40 ∧
    sessionSelectSingle [rowStale] token40 payload40.wallet_address =
      some rowStale ∧
    rowStale.expires_at < 1000 ∧
    verifyAuthToken envNone 1000 [rowStale] token40 =
      { result := none
        store := List.filter (fun r => !(r.jwt_token == token40)) [rowStale]
        storeReads := 1 } :=
  ⟨by decide, by decide, by decide,
   (verify_store_frame_effect envNone 1000 [rowStale] token40).1 payload40
     rowStale (by decide) (by decide) (by decide)⟩

/-- Claim C7: when the wallet library reports a different nonempty address
while an address was previously held, the effect performs exactly the
disconnection invalidation on state and both storage areas, additionally
leaves no wallet-library-owned key in either area, forces a full reload,
and a subsequent read of the stored session token is a miss. -/
theorem address_change_full_invalidation :
    ∀ (p b : String) (st : ClientAuthState) (ls ss : WebStorage),
      p ≠ "" → b ≠ p →
      ((addressChangeEffect (some p) (some b) st ls ss).1.state =
          (disconnectEffect false true st ls ss).state ∧
        (addressChangeEffect (some p) (some b) st ls ss).1.localS =
          (disconnectEffect false true st ls ss).localS ∧
        (addressChangeEffect (some p) (some b) st ls ss).1.sessionS =
          (disconnectEffect false true st ls ss).sessionS) ∧
      (addressChangeEffect (some p) (some b) st ls ss).1.reloaded = true ∧
      storageGetItem ((addressChangeEffect (some p) (some b) st ls ss).1.localS)
        jwtTokenKey = none ∧
      ((addressChangeEffect (some p) (some b) st ls ss).1.localS).all
        (fun kv => !(walletLocalKey kv.1)) = true ∧
      ((addressChangeEffect (some p) (some b) st ls ss).1.sessionS).all
        (fun kv => !(walletSessionKey kv.1)) = true ∧
      (addressChangeEffect (some p) (some b) st ls ss).1.state.isAuthenticated
        = false ∧
      (addressChangeEffect (some p) (some b) st ls ss).1.state.jwtToken =
        none ∧
      (addressChangeEffect (some p) (some b) st ls ss).1.state.userAddress =
        none := by
  intro p b st ls ss hp hb
  have hcond : p ≠ "" ∧ some p ≠ (some b : Option String) := by
    refine ⟨hp, fun h => ?_⟩
    injection h with h
    exact hb h.symm
  have hred : (addressChangeEffect (some p) (some b) st ls ss).1 =
      { state := (storeLogout st ls).1
        localS := (clearWalletData (storeLogout st ls).2 ss).1
        sessionS := (clearWalletData (storeLogout st ls).2 ss).2
        navigatedHome := false, reloaded := true } := by
    simp only [addressChangeEffect]
    rw [if_pos hcond]
  have hcov : ∀ a : String × String,
      (a.1 == jwtTokenKey) = true → walletLocalKey a.1 = true := by
    intro a h
    have he : a.1 = jwtTokenKey := eq_of_beq h
    rw [he]
    decide
  rw [hred]
  refine ⟨⟨rfl, rfl, rfl⟩, rfl, ?_, ?_, ?_, rfl, rfl, rfl⟩
  · simp only [clearWalletData, storeLogout, storageGetItem,
      storageRemoveItem]
    rw [findFilteredNone (fun kv : String × String => walletLocalKey kv.1)
      (fun kv : String × String => kv.1 == jwtTokenKey) hcov]
    rfl
  · simp only [clearWalletData, storeLogout]
    exact filterNotAllNot (fun kv : String × String => walletLocalKey kv.1) _
  · simp only [clearWalletData, storeLogout]
    exact filterNotAllNot (fun kv : String × String => walletSessionKey kv.1) _

/-- Witness for C7 at a concrete authenticated client switching from
addr40 to addrB. -/
theorem address_change_full_invalidation_witness :
    addr40 ≠ "" ∧ addrB ≠ addr40 ∧
    storageGetItem
      ((addressChangeEffect (some addr40) (some addrB) st0 ls0 ss0).1.localS)
      jwtTokenKey = none ∧
    (addressChangeEffect (some addr40) (some addrB) st0 ls0 ss0).1.reloaded =
      true :=
  ⟨by decide, by decide,
   (address_change_full_invalidation addr40 addrB st0 ls0 ss0 (by decide)
      (by decide)).2.2.1,
   (address_change_full_invalidation addr40 addrB st0 ls0 ss0 (by decide)
      (by decide)).2.1⟩

/-- Claim C1: the signin handler issues and records a credential for a
profiled address without any cryptographic check of the signature: a
garbage signature is accepted, and the whole outcome is identical under
two different signature blobs, so issuance cannot be conditioned on
recovering the claimed address from the signature. -/
theorem signin_issues_credential_without_signature_check :
    (signinHandler envNone 0 [addr40] none [] msg40 junkSignatureA).1.success =
      true ∧
    (signinHandler envNone 0 [addr40] none [] msg40 junkSignatureA).1.token =
      some (issuedToken envNone 0 addr40) ∧
    (signinHandler envNone 0 [addr40] none [] msg40 junkSignatureA).2 =
      [issuedRow envNone 0 addr40] ∧
    signinHandler envNone 0 [addr40] none [] msg40 junkSignatureA =
      signinHandler envNone 0 [addr40] none [] msg40 junkSignatureB := by
  decide

/-- Claim C3 counterexample: a successful signin answers with HTTP 200,
not 201 as claimed. -/
theorem signin_success_is_200_not_201 :
    (signinHandler envNone 0 [addr40] none [] msg40 junkSignatureA).1.success =
      true ∧
    ((signinHandler envNone 0 [addr40] none [] msg40
        junkSignatureA).1.token).isSome = true ∧
    (signinHandler envNone 0 [addr40] none [] msg40 junkSignatureA).1.status =
      200 ∧
    (signinHandler envNone 0 [addr40] none [] msg40 junkSignatureA).1.status ≠
      201 := by
  decide

/-- Claim C3 amended: for every request whose message yields an address
and whose signature is nonempty, a missing profile gives 403 with
needsSetup true, the lower-cased address echoed, no token and an unchanged
store; an existing profile with a working store gives 200 with the issued
token recorded in the store; and no signin response ever carries 401
(signature verification is absent, so there is no verification-failure
path). -/
theorem signin_contract_amended :
    ∀ (env : Env) (now : Nat) (profiles : Profiles) (ie : Option DbError)
      (store : SessionStore) (message signature : String),
      (∀ a : String, extractAddress message.toList = some a → signature ≠ "" →
        ((profiles.contains (strToLower a) = false →
            signinHandler env now profiles ie store message signature =
              ({ status := 403, success := false, token := none
                 needsSetup := some true, walletAddress := none
                 address := some (strToLower a) }, store)) ∧
          (profiles.contains (strToLower a) = true → ie = none →
            signinHandler env now profiles ie store message signature =
              ({ status := 200, success := true
                 token := some (issuedToken env now a)
                 needsSetup := none, walletAddress := some a
                 address := none }, store ++ [issuedRow env now a]) ∧
            sessionExists (store ++ [issuedRow env now a])
              (issuedToken env now a) (strToLower a) = true))) ∧
      (signinHandler env now profiles ie store message signature).1.status ≠
        401 := by
  intro env now profiles ie store message signature
  constructor
  · intro a ha hsig
    have hmsg : ¬ message = "" := by
      intro he
      rw [he] at ha
      have hnone : extractAddress "".toList = none := rfl
      rw [hnone] at ha
      exact Option.noConfusion ha
    have hcond : ¬ (message = "" ∨ signature = "") := by
      rintro (h | h)
      · exact hmsg h
      · exact hsig h
    constructor
    · intro hnp
      simp only [signinHandler, ha]
      rw [if_neg hcond, if_pos hnp]
    · intro hyes hie
      subst hie
      have hnotf : ¬ profiles.contains (strToLower a) = false := by
        intro hfalse
        rw [hyes] at hfalse
        exact Bool.noConfusion hfalse
      constructor
      · simp only [signinHandler, ha]
        rw [if_neg hcond, if_neg hnotf]
        rfl
      · simp [sessionExists, issuedRow]
  · by_cases h1 : message = "" ∨ signature = ""
    · simp [signinHandler, h1]
    · cases hx : extractAddress message.toList with
      | none =>
          have hx2 : extractAddress message.data = none := hx
          simp [signinHandler, h1, hx2]
      | some a =>
          have hx2 : extractAddress message.data = some a := hx
          simp only [signinHandler, String.toList, hx2]
          rw [if_neg h1]
          split
          · simp
          · split
            · simp
            · split <;> simp

/-- Witness for C3 amended covering both the missing-profile 403 path and
the successful 200 path at concrete requests, plus the never-401 fact. -/
theorem signin_contract_amended_witness :
    extractAddress msg40.toList = some addr40 ∧
    junkSignatureA ≠ "" ∧
    ([] : Profiles).contains (strToLower addr40) = false ∧
    signinHandler envNone 0 [] none [] msg40 junkSignatureA =
      ({ status := 403, success := false, token := none
         needsSetup := some true, walletAddress := none
         address := some (strToLower addr40) }, []) ∧
    ([addr40] : Profiles).contains (strToLower addr40) = true ∧
    (signinHandler envNone 0 [addr40] none [] msg40 junkSignatureA =
        ({ status := 200, success := true
           token := some (issuedToken envNone 0 addr40)
           needsSetup := none, walletAddress := some addr40
           address := none }, [] ++ [issuedRow envNone 0 addr40]) ∧
      sessionExists ([] ++ [issuedRow envNone 0 addr40])
        (issuedToken envNone 0 addr40) (strToLower addr40) = true) ∧
    (signinHandler envNone 0 [] none [] msg40 junkSignatureA).1.status ≠
      401 :=
  ⟨by decide, by decide, by decide,
   ((signin_contract_amended envNone 0 [] none [] msg40 junkSignatureA).1
      addr40 (by decide) (by decide)).1 (by decide),
   by decide,
   ((signin_contract_amended envNone 0 [addr40] none [] msg40
      junkSignatureA).1 addr40 (by decide) (by decide)).2 (by decide) rfl,
   (signin_contract_amended envNone 0 [] none [] msg40 junkSignatureA).2⟩
